import Mathlib

/-!
Verification of the ScriptSense session workflow controller (src/live.py).

The Streamlit script keeps four pieces of session state:
`captured_image_pil`, `analysis_result`, `show_camera`, `previous_language`.
We embed the state and each event handler as pure Lean functions.  External
collaborator calls (Gemini analyze / follow-up) are modelled by passing their
outcome as an `Option String` argument: `none` stands for the Python function
returning `None` (an exception was caught), `some t` for a returned text `t`.
Python truthiness of an optional string (`if analysis:`) treats both `None`
and the empty string as falsy, which `optTruthy` captures.
-/

namespace ScriptSense

/-- Python truthiness of an optional string: `None` and `""` are falsy. -/
def optTruthy : Option String → Bool
  | none => false
  | some t => t ≠ ""

/-- The Streamlit session state of src/live.py (lines 49-56): the image
(opaque bitmap handle, `None` when absent), the analysis text, the camera
flag, and the language under which the last analysis was produced. -/
structure SessionState where
  captured_image_pil : Option Nat
  analysis_result : Option String
  show_camera : Bool
  previous_language : Option String
deriving DecidableEq

/-- Initial session state (lines 49-56). -/
def initialState : SessionState := ⟨none, none, false, none⟩

/-- Which input path delivered a bitmap. -/
inductive ImageSource
  | upload
  | camera
deriving DecidableEq

/-- The fixed failure placeholder stored at line 165. -/
def failurePlaceholder : String :=
  "Analysis failed. Please try a different image or check logs."

/-- A successful image submission: camera-capture handler (lines 120-126)
and uploaded-file handler (lines 132-137).  Both set the image, clear
`analysis_result` and set `show_camera` to `False`; neither touches
`previous_language`. -/
def submitImage (s : SessionState) (_src : ImageSource) (b : Nat) : SessionState :=
  { s with captured_image_pil := some b, analysis_result := none, show_camera := false }

/-- A submission whose decode raised: the `except` branches at lines 127-129
(camera) and 138-140 (upload) both set `captured_image_pil = None` and
nothing else. -/
def submitImageDecodeFailure (s : SessionState) (_src : ImageSource) : SessionState :=
  { s with captured_image_pil := none }

/-- The Activate Camera button handler (lines 110-114): flip `show_camera`;
if the new value is `False`, also clear the image and the analysis result. -/
def toggleCamera (s : SessionState) : SessionState :=
  if !s.show_camera then
    { s with show_camera := true }
  else
    { s with show_camera := false, captured_image_pil := none, analysis_result := none }

/-- The Clear Image and Analysis button handler (lines 145-149): clear the
image, the analysis result and the camera flag; `previous_language` is not
assigned there. -/
def clearImage (s : SessionState) : SessionState :=
  { s with captured_image_pil := none, analysis_result := none, show_camera := false }

/-- Result of one run of the col2 analysis block: the new state, how many
times the analyze collaborator was invoked during the run, and the
displayed outcome (`none` when the run produced no fresh text). -/
structure AnalysisStep where
  state : SessionState
  calls : Nat
  outcome : Option String
deriving DecidableEq

/-- The col2 analysis block (lines 153-166), the spec operation
`ensureAnalysis`.  `collab` is what `process_image_with_gemini` would
return.  The block runs only when an image is present; it recomputes when
`analysis_result is None` or `previous_language != language_option`; on a
falsy collaborator return it stores the placeholder only when the language
changed (lines 162-165). -/
def ensureAnalysis (s : SessionState) (lang : String) (collab : Option String) :
    AnalysisStep :=
  match s.captured_image_pil with
  | none => ⟨s, 0, none⟩
  | some _ =>
    if s.analysis_result = none ∨ s.previous_language ≠ some lang then
      if optTruthy collab then
        ⟨{ s with analysis_result := collab, previous_language := some lang }, 1, collab⟩
      else if s.previous_language ≠ some lang then
        ⟨{ s with analysis_result := some failurePlaceholder }, 1, none⟩
      else
        ⟨s, 1, none⟩
    else
      ⟨s, 0, s.analysis_result⟩

/-- Whether the result section renders (line 153 guard conjoined with the
truthiness test at line 168). -/
def displayGate (s : SessionState) : Bool :=
  s.captured_image_pil.isSome && optTruthy s.analysis_result

/-- The text handed to the download button (lines 172-177), when shown. -/
def downloadPayload (s : SessionState) : Option String :=
  if displayGate s then s.analysis_result else none

/-- The context string passed to `get_followup_response` (line 183), when
the follow-up section is reachable. -/
def followupContext (s : SessionState) : Option String :=
  if displayGate s then s.analysis_result else none

/-- The follow-up button handler (lines 181-187): it runs only when the
question is non-empty, calls the ask collaborator with `analysis_result`
as context and displays the reply; it assigns no session-state field. -/
def askFollowUp (s : SessionState) (q : String) (resp : Option String) :
    SessionState × Option String :=
  if optTruthy s.analysis_result && (q ≠ "" : Bool) then (s, resp) else (s, none)

/-- One top-to-bottom run of the input-processing section of col1
(lines 110-140 without the buttons): the camera block runs first and only
while `show_camera` is set, and a successful capture calls `st.rerun()`
(line 126), which aborts the script run; the upload block runs afterwards
otherwise.  A widget value `none` means no file/picture is present,
`some (some b)` a file decoding to bitmap `b`, and `some none` a present
but undecodable file.  Returns the state and whether a rerun was raised. -/
def inputCycle (s : SessionState) (upload cam : Option (Option Nat)) :
    SessionState × Bool :=
  let step1 : SessionState × Bool :=
    if s.show_camera then
      match cam with
      | none => (s, false)
      | some (some b) =>
        ({ s with captured_image_pil := some b, analysis_result := none,
                  show_camera := false }, true)
      | some none => ({ s with captured_image_pil := none }, false)
    else (s, false)
  if step1.2 then step1
  else
    match upload with
    | none => (step1.1, false)
    | some (some b) =>
      ({ step1.1 with captured_image_pil := some b, analysis_result := none,
                      show_camera := false }, false)
    | some none => ({ step1.1 with captured_image_pil := none }, false)

/-- A user-visible refresh: one script run plus the immediate rerun that a
successful camera capture requests (`st.rerun()` at line 126 restarts the
script at once; on that restart `show_camera` is `False`, so the camera
block is skipped while the still-present uploaded file is processed). -/
def runRefresh (s : SessionState) (upload cam : Option (Option Nat)) : SessionState :=
  let r := inputCycle s upload cam
  if r.2 then (inputCycle r.1 upload cam).1 else r.1

/-! Helper lemmas about the analysis block. -/

/-- When the image is present, the result is present and the recorded
language matches the target, the analysis block is a cache hit: the state
is untouched, no collaborator call is made, and the existing result is the
outcome. -/
lemma ensureAnalysis_hit (s : SessionState) (lang : String) (c : Option String)
    (himg : s.captured_image_pil.isSome = true)
    (hres : s.analysis_result ≠ none)
    (hprev : s.previous_language = some lang) :
    ensureAnalysis s lang c = ⟨s, 0, s.analysis_result⟩ := by
  rcases s with ⟨img, res, cam, prev⟩
  cases img with
  | none => simp at himg
  | some b => simp_all [ensureAnalysis]

/-- When a recompute is due (image present, and either no result or a
language mismatch), the analysis block makes exactly one collaborator
call. -/
lemma ensureAnalysis_recompute_calls (s : SessionState) (lang : String)
    (c : Option String)
    (himg : s.captured_image_pil.isSome = true)
    (hcond : s.analysis_result = none ∨ s.previous_language ≠ some lang) :
    (ensureAnalysis s lang c).calls = 1 := by
  rcases s with ⟨img, res, cam, prev⟩
  cases img with
  | none => simp at himg
  | some b =>
    simp only [ensureAnalysis, hcond, if_true, if_pos]
    split
    · rfl
    · split <;> rfl

/-- A run of the analysis block whose outcome is truthy leaves a state
whose image is still present, whose result equals that outcome (a truthy
string), and whose recorded language is the target language. -/
lemma ensureAnalysis_fresh (s : SessionState) (lang : String) (c : Option String)
    (h : optTruthy (ensureAnalysis s lang c).outcome = true) :
    (ensureAnalysis s lang c).state.captured_image_pil.isSome = true ∧
    (ensureAnalysis s lang c).state.analysis_result = (ensureAnalysis s lang c).outcome ∧
    (ensureAnalysis s lang c).state.analysis_result ≠ none ∧
    (ensureAnalysis s lang c).state.previous_language = some lang := by
  rcases s with ⟨img, res, cam, prev⟩
  cases img with
  | none => simp [ensureAnalysis, optTruthy] at h
  | some b =>
    by_cases hcond : res = none ∨ prev ≠ some lang
    · by_cases hc : optTruthy c = true
      · simp_all [ensureAnalysis]
        cases c with
        | none => simp [optTruthy] at hc
        | some t => simp
      · simp_all [ensureAnalysis]
        split at h <;> simp [optTruthy] at h
    · push_neg at hcond
      obtain ⟨hres, hprev⟩ := hcond
      have heq := ensureAnalysis_hit ⟨some b, res, cam, prev⟩ lang c (by simp) hres hprev
      rw [heq] at h ⊢
      refine ⟨by simp, rfl, ?_, hprev⟩
      intro hn
      rw [hn] at h
      simp [optTruthy] at h

/-! Claim theorems. -/

/-- Claim C1, counterexample: with an image present, no stored result and a
recorded language equal to the target, a first `ensureAnalysis` whose
collaborator call fails makes one call and leaves the state unchanged, so
the second consecutive call with the same language makes a collaborator
call again — two calls in total, and the second call is not a cache hit. -/
theorem C1_counterexample :
    (ensureAnalysis ⟨some 0, none, false, some "English"⟩ "English" none).calls = 1 ∧
    (ensureAnalysis
      (ensureAnalysis ⟨some 0, none, false, some "English"⟩ "English" none).state
      "English" none).calls = 1 := by
  constructor <;> decide

/-- Claim C1 (amended): when the first `ensureAnalysis` call returns a
truthy outcome, a second consecutive call with the same target language and
no intervening submit/clear makes no collaborator call, returns the stored
`analysis_result`, and leaves the state unchanged. -/
theorem C1_theorem (s : SessionState) (lang : String) (c1 c2 : Option String)
    (h : optTruthy (ensureAnalysis s lang c1).outcome = true) :
    (ensureAnalysis (ensureAnalysis s lang c1).state lang c2).calls = 0 ∧
    (ensureAnalysis (ensureAnalysis s lang c1).state lang c2).outcome
      = (ensureAnalysis s lang c1).state.analysis_result ∧
    (ensureAnalysis (ensureAnalysis s lang c1).state lang c2).state
      = (ensureAnalysis s lang c1).state := by
  obtain ⟨himg, _, hres, hprev⟩ := ensureAnalysis_fresh s lang c1 h
  rw [ensureAnalysis_hit _ lang c2 himg hres hprev]
  exact ⟨rfl, rfl, rfl⟩

/-- Claim C1, witness: a concrete successful first call followed by a
cache-hit second call. -/
theorem C1_witness :
    optTruthy (ensureAnalysis ⟨some 0, none, false, none⟩ "English" (some "T")).outcome
      = true ∧
    ((ensureAnalysis (ensureAnalysis ⟨some 0, none, false, none⟩ "English" (some "T")).state
        "English" none).calls = 0 ∧
     (ensureAnalysis (ensureAnalysis ⟨some 0, none, false, none⟩ "English" (some "T")).state
        "English" none).outcome
       = (ensureAnalysis ⟨some 0, none, false, none⟩ "English" (some "T")).state.analysis_result ∧
     (ensureAnalysis (ensureAnalysis ⟨some 0, none, false, none⟩ "English" (some "T")).state
        "English" none).state
       = (ensureAnalysis ⟨some 0, none, false, none⟩ "English" (some "T")).state) :=
  ⟨by decide, C1_theorem ⟨some 0, none, false, none⟩ "English" (some "T") none (by decide)⟩

/-- Claim C2, counterexample: on the very first analysis attempt (image
present, `analysis_result` and `previous_language` both `None`), a failing
collaborator call stores the failure placeholder instead of leaving
`analysis_result` absent, because `previous_language = None` differs from
the target language and so counts as a language change at line 155. -/
theorem C2_counterexample :
    (ensureAnalysis ⟨some 0, none, false, none⟩ "English" none).state.analysis_result
      = some failurePlaceholder ∧
    (ensureAnalysis ⟨some 0, none, false, none⟩ "English" none).state.analysis_result
      ≠ none := by
  constructor <;> decide

/-- Claim C2 (amended): when the analysis block recomputes for an image
with no stored result and the collaborator call fails, the outcome is a
failure, and `analysis_result` is left absent exactly when the recorded
`previous_language` already equals the target language; when it differs
(including the initial `None`), the failure placeholder is stored. -/
theorem C2_theorem (s : SessionState) (lang : String) (c : Option String)
    (himg : s.captured_image_pil.isSome = true)
    (hres : s.analysis_result = none)
    (hfail : optTruthy c = false) :
    (ensureAnalysis s lang c).outcome = none ∧
    (ensureAnalysis s lang c).state.analysis_result
      = (if s.previous_language = some lang then none else some failurePlaceholder) := by
  rcases s with ⟨img, res, cam, prev⟩
  cases img with
  | none => simp at himg
  | some b =>
    by_cases hp : prev = some lang
    · simp_all [ensureAnalysis]
    · simp_all [ensureAnalysis]

/-- Claim C2, witness: an image with no stored result and a matching
recorded language, whose failed analysis leaves the result absent. -/
theorem C2_witness :
    ((⟨some 0, none, false, some "English"⟩ : SessionState).captured_image_pil.isSome = true ∧
     (⟨some 0, none, false, some "English"⟩ : SessionState).analysis_result = none ∧
     optTruthy none = false) ∧
    ((ensureAnalysis ⟨some 0, none, false, some "English"⟩ "English" none).outcome = none ∧
     (ensureAnalysis ⟨some 0, none, false, some "English"⟩ "English" none).state.analysis_result
       = (if (⟨some 0, none, false, some "English"⟩ : SessionState).previous_language
            = some "English" then none else some failurePlaceholder)) :=
  ⟨⟨by decide, by decide, by decide⟩,
   C2_theorem ⟨some 0, none, false, some "English"⟩ "English" none
     (by decide) (by decide) (by decide)⟩

/-- Claim C3, counterexample: the clear handler (lines 146-148) never
assigns `previous_language`, so after clearing, the recorded analysis
language still reads as the old value rather than absent. -/
theorem C3_counterexample :
    (clearImage ⟨some 0, some "T", true, some "French"⟩).previous_language ≠ none := by
  decide

/-- Claim C3 (amended): `clearImage` clears `image`, `analysisResult` and
`cameraActive` and is idempotent, but it leaves `analysisLanguage`
(`previous_language`) untouched. -/
theorem C3_theorem (s : SessionState) :
    (clearImage s).captured_image_pil = none ∧
    (clearImage s).analysis_result = none ∧
    (clearImage s).show_camera = false ∧
    (clearImage s).previous_language = s.previous_language ∧
    clearImage (clearImage s) = clearImage s :=
  ⟨rfl, rfl, rfl, rfl, rfl⟩

/-- Claim C4, counterexample: the submission handlers never assign
`previous_language`, so after a successful submission the recorded analysis
language is still the old value rather than absent. -/
theorem C4_counterexample :
    (submitImage ⟨some 0, some "T", false, some "French"⟩ ImageSource.upload 1).previous_language
      ≠ none := by
  decide

/-- Claim C4 (amended): a successful submission sets the image to the new
bitmap, clears `analysisResult`, and sets `cameraActive` to false for
either source, but `analysisLanguage` (`previous_language`) keeps its
prior value. -/
theorem C4_theorem (s : SessionState) (src : ImageSource) (b : Nat) :
    (submitImage s src b).captured_image_pil = some b ∧
    (submitImage s src b).analysis_result = none ∧
    (submitImage s src b).show_camera = false ∧
    (submitImage s src b).previous_language = s.previous_language :=
  ⟨rfl, rfl, rfl, rfl⟩

/-- Claim C5, counterexample: a decode failure while the session already
holds image `5` overwrites that previously held image with `None`
(lines 129 and 140), so the previously held session state is not fully
preserved. -/
theorem C5_counterexample :
    (⟨some 5, some "T", false, some "French"⟩ : SessionState).captured_image_pil = some 5 ∧
    (submitImageDecodeFailure ⟨some 5, some "T", false, some "French"⟩
        ImageSource.upload).captured_image_pil = none :=
  ⟨rfl, rfl⟩

/-- Claim C5 (amended): a decode failure raises no error and touches only
the image field, which it sets to absent — clearing any previously held
image — while `analysisResult`, `analysisLanguage` and `cameraActive` are
all preserved, so the most recent successful result survives. -/
theorem C5_theorem (s : SessionState) (src : ImageSource) :
    (submitImageDecodeFailure s src).captured_image_pil = none ∧
    (submitImageDecodeFailure s src).analysis_result = s.analysis_result ∧
    (submitImageDecodeFailure s src).previous_language = s.previous_language ∧
    (submitImageDecodeFailure s src).show_camera = s.show_camera :=
  ⟨rfl, rfl, rfl, rfl⟩

/-- Claim C6: after an `ensureAnalysis` call with a truthy (successful)
outcome for language `l0`, calling `ensureAnalysis` for a different target
language makes exactly one collaborator call. -/
theorem C6_theorem (s : SessionState) (l0 lang : String) (c0 c : Option String)
    (hsucc : optTruthy (ensureAnalysis s l0 c0).outcome = true)
    (hne : lang ≠ l0) :
    (ensureAnalysis (ensureAnalysis s l0 c0).state lang c).calls = 1 := by
  obtain ⟨himg, _, hres, hprev⟩ := ensureAnalysis_fresh s l0 c0 hsucc
  refine ensureAnalysis_recompute_calls _ lang c himg (Or.inr ?_)
  rw [hprev]
  intro hcontra
  exact hne (Option.some.inj hcontra).symm

/-- Claim C6, witness: a successful French analysis followed by a German
request triggers exactly one collaborator call. -/
theorem C6_witness :
    (optTruthy (ensureAnalysis ⟨some 0, none, false, none⟩ "French" (some "T1")).outcome
       = true ∧
     "German" ≠ "French") ∧
    (ensureAnalysis (ensureAnalysis ⟨some 0, none, false, none⟩ "French" (some "T1")).state
        "German" none).calls = 1 :=
  ⟨⟨by decide, by decide⟩,
   C6_theorem ⟨some 0, none, false, none⟩ "French" "German" (some "T1") none
     (by decide) (by decide)⟩

/-- Claim C7: the follow-up handler never mutates the session state,
whatever the question and whatever the collaborator outcome. -/
theorem C7_theorem (s : SessionState) (q : String) (resp : Option String) :
    (askFollowUp s q resp).1 = s := by
  unfold askFollowUp
  split <;> rfl

/-- Claim C8: when an uploaded file and a camera capture are both present
in the same refresh, the upload wins (the capture reruns the script with
the camera off, and the upload block then overwrites the image); and for
any sequence of submissions, the image equals the last submitted bitmap. -/
theorem C8_theorem (s : SessionState) (ub cb : Nat) :
    (runRefresh s (some (some ub)) (some (some cb))).captured_image_pil = some ub ∧
    ∀ (t : SessionState) (l : List (ImageSource × Nat)) (src : ImageSource) (b : Nat),
      (List.foldl (fun st p => submitImage st p.1 p.2) t
          (l ++ [(src, b)])).captured_image_pil = some b := by
  constructor
  · rcases s with ⟨img, res, sc, prev⟩
    cases sc <;> rfl
  · intro t l src b
    rw [List.foldl_append]
    rfl

/-- Claim C9: toggling the camera on and then off again with no capture in
between clears both the image and the analysis result, whatever the prior
state was. -/
theorem C9_theorem (s : SessionState) (h : s.show_camera = false) :
    (toggleCamera (toggleCamera s)).captured_image_pil = none ∧
    (toggleCamera (toggleCamera s)).analysis_result = none := by
  simp [toggleCamera, h]

/-- Claim C9, witness: a state holding an image and a result, camera off. -/
theorem C9_witness :
    (⟨some 3, some "T", false, some "French"⟩ : SessionState).show_camera = false ∧
    ((toggleCamera (toggleCamera ⟨some 3, some "T", false, some "French"⟩)).captured_image_pil
       = none ∧
     (toggleCamera (toggleCamera ⟨some 3, some "T", false, some "French"⟩)).analysis_result
       = none) :=
  ⟨rfl, C9_theorem ⟨some 3, some "T", false, some "French"⟩ rfl⟩

/-- Claim C10: a failed analysis attempt while the target language differs
from the recorded one stores the fixed non-empty placeholder string as
`analysis_result`; the result section therefore renders it, offers it for
download, and would pass it verbatim as the follow-up context, exactly as
a genuine result. -/
theorem C10_theorem (s : SessionState) (lang : String) (c : Option String)
    (himg : s.captured_image_pil.isSome = true)
    (hlang : s.previous_language ≠ some lang)
    (hfail : optTruthy c = false) :
    (ensureAnalysis s lang c).state.analysis_result = some failurePlaceholder ∧
    failurePlaceholder ≠ "" ∧
    displayGate (ensureAnalysis s lang c).state = true ∧
    downloadPayload (ensureAnalysis s lang c).state = some failurePlaceholder ∧
    followupContext (ensureAnalysis s lang c).state = some failurePlaceholder := by
  have hne : failurePlaceholder ≠ "" := by decide
  rcases s with ⟨img, res, cam, prev⟩
  cases img with
  | none => simp at himg
  | some b =>
    have hstate : (ensureAnalysis ⟨some b, res, cam, prev⟩ lang c).state
        = ⟨some b, some failurePlaceholder, cam, prev⟩ := by
      simp_all [ensureAnalysis]
    rw [hstate]
    refine ⟨rfl, hne, ?_, ?_, ?_⟩
    · simp [displayGate, optTruthy, hne]
    · simp [downloadPayload, displayGate, optTruthy, hne]
    · simp [followupContext, displayGate, optTruthy, hne]

/-- Claim C10, witness: a German request over a French-language result with
a failing collaborator call. -/
theorem C10_witness :
    ((⟨some 0, some "Old", false, some "French"⟩ : SessionState).captured_image_pil.isSome
       = true ∧
     (⟨some 0, some "Old", false, some "French"⟩ : SessionState).previous_language
       ≠ some "German" ∧
     optTruthy none = false) ∧
    ((ensureAnalysis ⟨some 0, some "Old", false, some "French"⟩ "German" none).state.analysis_result
       = some failurePlaceholder ∧
     failurePlaceholder ≠ "" ∧
     displayGate (ensureAnalysis ⟨some 0, some "Old", false, some "French"⟩ "German" none).state
       = true ∧
     downloadPayload (ensureAnalysis ⟨some 0, some "Old", false, some "French"⟩ "German" none).state
       = some failurePlaceholder ∧
     followupContext (ensureAnalysis ⟨some 0, some "Old", false, some "French"⟩ "German" none).state
       = some failurePlaceholder) :=
  ⟨⟨by decide, by decide, by decide⟩,
   C10_theorem ⟨some 0, some "Old", false, some "French"⟩ "German" none
     (by decide) (by decide) (by decide)⟩

end ScriptSense
